import Mathlib

/-!
Shallow embedding of the GitHub OAuth device-flow authentication module of
`create-vtex-io-app`.

The module has two functions:

* `pollForToken(deviceCode, interval)` — a `while (true)` loop that waits
  `currentInterval` seconds, POSTs `{client_id, device_code, grant_type}` to the
  token endpoint, and classifies the response: a truthy `error` field equal to
  `authorization_pending` continues with the same interval, `slow_down`
  continues with the interval increased by 5, any other truthy error throws
  `Error(error_description || error)`; a response without a truthy `error`
  returns `data.access_token`.  A rejected request throws the response body's
  `error_description` when truthy, else rethrows the error.
* `getGitHubToken()` — requests a device-code session, prints instructions,
  awaits `open(verification_uri)`, then awaits `pollForToken`; any error thrown
  anywhere inside is caught and rewrapped as
  `Error("GitHub authentication failed: " + err.message)`.

The embedding scripts the external world (the HTTP responses and the outcome of
the browser-`open` call) as explicit data, and records the observable trace of
the loop: the sequence of waits (in seconds, one before every token request)
and the sequence of token requests issued.
-/

/-- URL of the device-code endpoint (constant from the source). -/
def GITHUB_DEVICE_CODE_URL : String := "https://github.com/login/device/code"

/-- URL of the token endpoint (constant from the source). -/
def GITHUB_OAUTH_URL : String := "https://github.com/login/oauth/access_token"

/-- OAuth client id (constant from the source). -/
def CLIENT_ID : String := "Ov23lijFMJGtxEKoBHgm"

/-- Requested scopes (constant from the source). -/
def SCOPES : List String := ["repo", "user"]

/-- Device-code grant type (constant from the source). -/
def GRANT_TYPE : String := "urn:ietf:params:oauth:grant-type:device_code"

/-- JavaScript truthiness of an optional string field: `undefined` and `""`
are falsy, every other string is truthy. -/
def isTruthy : Option String → Bool
  | none => false
  | some s => decide (s ≠ "")

/-- JavaScript `a || b` for an optional string `a` and a string `b`. -/
def jsOr (a : Option String) (b : String) : String :=
  if isTruthy a then a.getD "" else b

/-- Body of a 2xx token-endpoint response, as the JSON fields the source
reads: `error`, `error_description` and `access_token`, each possibly absent. -/
structure TokenData where
  error : Option String
  error_description : Option String
  access_token : Option String
deriving DecidableEq, Repr

/-- Outcome of one token-endpoint POST: either axios resolves with a data
body, or it rejects with an `Error` whose message is `message` and whose
attached response body carries `respErrorDescription`
(`err.response.data.error_description`, possibly absent). -/
inductive TokenResponse where
  | ok (data : TokenData)
  | reqError (respErrorDescription : Option String) (message : String)
deriving DecidableEq, Repr

/-- Body of a token-exchange POST request issued by the polling loop. -/
structure TokenRequest where
  client_id : String
  device_code : String
  grant_type : String
deriving DecidableEq, Repr

/-- Result of running the polling loop against a finite script of responses:
the loop returned `data.access_token` (`success`), threw an `Error` with the
given message (`failure`), or consumed the whole script while still looping,
with the given current interval (`pending`). -/
inductive PollResult where
  | success (access_token : Option String)
  | failure (message : String)
  | pending (currentInterval : Nat)
deriving DecidableEq, Repr

/-- Observable trace of the polling loop: the waits performed (in seconds,
element `k` is the wait immediately preceding token request `k`), the token
requests issued, and the outcome. -/
structure PollTrace where
  waits : List Nat
  requests : List TokenRequest
  result : PollResult
deriving DecidableEq, Repr

/-- Embedding of `pollForToken(deviceCode, interval)`, run against a finite
script of token-endpoint responses.  Each iteration waits `currentInterval`
seconds, issues one request `{client_id: CLIENT_ID, device_code,
grant_type: GRANT_TYPE}` and consumes the next scripted response. -/
def pollForToken (deviceCode : String) : Nat → List TokenResponse → PollTrace
  | currentInterval, [] => ⟨[], [], PollResult.pending currentInterval⟩
  | currentInterval, TokenResponse.ok data :: rest =>
      if isTruthy data.error then
        if data.error = some "authorization_pending" then
          let t := pollForToken deviceCode currentInterval rest
          ⟨currentInterval :: t.waits,
           ⟨CLIENT_ID, deviceCode, GRANT_TYPE⟩ :: t.requests, t.result⟩
        else if data.error = some "slow_down" then
          let t := pollForToken deviceCode (currentInterval + 5) rest
          ⟨currentInterval :: t.waits,
           ⟨CLIENT_ID, deviceCode, GRANT_TYPE⟩ :: t.requests, t.result⟩
        else
          ⟨[currentInterval], [⟨CLIENT_ID, deviceCode, GRANT_TYPE⟩],
           PollResult.failure (jsOr data.error_description (data.error.getD ""))⟩
      else
        ⟨[currentInterval], [⟨CLIENT_ID, deviceCode, GRANT_TYPE⟩],
         PollResult.success data.access_token⟩
  | currentInterval, TokenResponse.reqError respDesc msg :: _ =>
      ⟨[currentInterval], [⟨CLIENT_ID, deviceCode, GRANT_TYPE⟩],
       PollResult.failure (if isTruthy respDesc then respDesc.getD "" else msg)⟩

/-- Fields of the device-code response the source destructures. -/
structure DeviceSession where
  user_code : String
  verification_uri : String
  interval : Nat
  device_code : String
  expires_in : Nat
deriving DecidableEq, Repr

/-- Outcome of the initial device-code POST: axios resolves with a session
body, or rejects with an `Error` whose message is `message` while the attached
response body carries `respErrorDescription` (not read by the source's outer
catch). -/
inductive DeviceCodeOutcome where
  | ok (data : DeviceSession)
  | reqError (respErrorDescription : Option String) (message : String)
deriving DecidableEq, Repr

/-- Result of one `getGitHubToken()` call: resolved with `data.access_token`
(`ok`), rejected with the given message (`authError`), or still polling after
the scripted responses ran out (`pending`). -/
inductive GetTokenResult where
  | ok (token : Option String)
  | authError (message : String)
  | pending (currentInterval : Nat)
deriving DecidableEq, Repr

/-- The scripted external world for one `getGitHubToken()` call: the outcome
of the device-code request, the outcome of `open(verification_uri)` (`none` if
the promise resolved, `some m` if it rejected with an `Error` of message `m`),
and the scripted token-endpoint responses. -/
structure Env where
  deviceCodeOutcome : DeviceCodeOutcome
  openOutcome : Option String
  tokenResponses : List TokenResponse
deriving DecidableEq, Repr

/-- Observable run of `getGitHubToken()`: the waits and token requests of the
polling phase, whether `pollForToken` was invoked at all, and the result. -/
structure GetTokenRun where
  waits : List Nat
  requests : List TokenRequest
  polled : Bool
  result : GetTokenResult
deriving DecidableEq, Repr

/-- Embedding of `getGitHubToken()`.  The single try/catch of the source wraps
the device-code request, the `open` call and the polling loop, and rewraps any
thrown `Error` as `Error("GitHub authentication failed: " + err.message)`. -/
def getGitHubToken (env : Env) : GetTokenRun :=
  match env.deviceCodeOutcome with
  | DeviceCodeOutcome.reqError _ msg =>
      ⟨[], [], false, GetTokenResult.authError ("GitHub authentication failed: " ++ msg)⟩
  | DeviceCodeOutcome.ok data =>
      match env.openOutcome with
      | some msg =>
          ⟨[], [], false, GetTokenResult.authError ("GitHub authentication failed: " ++ msg)⟩
      | none =>
          let t := pollForToken data.device_code data.interval env.tokenResponses
          match t.result with
          | PollResult.success tok => ⟨t.waits, t.requests, true, GetTokenResult.ok tok⟩
          | PollResult.failure m =>
              ⟨t.waits, t.requests, true,
               GetTokenResult.authError ("GitHub authentication failed: " ++ m)⟩
          | PollResult.pending j => ⟨t.waits, t.requests, true, GetTokenResult.pending j⟩

/-- A scripted response whose body has `error === "authorization_pending"`. -/
def isPendingResp : TokenResponse → Bool
  | TokenResponse.ok d => decide (d.error = some "authorization_pending")
  | TokenResponse.reqError _ _ => false

/-- A scripted response whose body has `error === "slow_down"`. -/
def isSlowDownResp : TokenResponse → Bool
  | TokenResponse.ok d => decide (d.error = some "slow_down")
  | TokenResponse.reqError _ _ => false

/-- A transient response: one of the two error codes the loop retries on. -/
def isTransient (r : TokenResponse) : Bool := isPendingResp r || isSlowDownResp r

/-- Number of `slow_down` responses in a script. -/
def slowDownCount (rs : List TokenResponse) : Nat := (rs.filter isSlowDownResp).length

/-! Unfolding lemmas, one per branch of the loop body. -/

theorem pollForToken_nil (dc : String) (i : Nat) :
    pollForToken dc i [] = ⟨[], [], PollResult.pending i⟩ := rfl

theorem pollForToken_cons_pending (dc : String) (i : Nat) (d : TokenData)
    (rest : List TokenResponse) (h : d.error = some "authorization_pending") :
    pollForToken dc i (TokenResponse.ok d :: rest) =
      ⟨i :: (pollForToken dc i rest).waits,
       ⟨CLIENT_ID, dc, GRANT_TYPE⟩ :: (pollForToken dc i rest).requests,
       (pollForToken dc i rest).result⟩ := by
  simp [pollForToken, h, isTruthy]

theorem pollForToken_cons_slow (dc : String) (i : Nat) (d : TokenData)
    (rest : List TokenResponse) (h : d.error = some "slow_down") :
    pollForToken dc i (TokenResponse.ok d :: rest) =
      ⟨i :: (pollForToken dc (i + 5) rest).waits,
       ⟨CLIENT_ID, dc, GRANT_TYPE⟩ :: (pollForToken dc (i + 5) rest).requests,
       (pollForToken dc (i + 5) rest).result⟩ := by
  simp [pollForToken, h, isTruthy]

theorem pollForToken_cons_fatal (dc : String) (i : Nat) (d : TokenData)
    (rest : List TokenResponse) (h1 : isTruthy d.error = true)
    (h2 : d.error ≠ some "authorization_pending") (h3 : d.error ≠ some "slow_down") :
    pollForToken dc i (TokenResponse.ok d :: rest) =
      ⟨[i], [⟨CLIENT_ID, dc, GRANT_TYPE⟩],
       PollResult.failure (jsOr d.error_description (d.error.getD ""))⟩ := by
  simp [pollForToken, h1, h2, h3]

theorem pollForToken_cons_success (dc : String) (i : Nat) (d : TokenData)
    (rest : List TokenResponse) (h : isTruthy d.error = false) :
    pollForToken dc i (TokenResponse.ok d :: rest) =
      ⟨[i], [⟨CLIENT_ID, dc, GRANT_TYPE⟩], PollResult.success d.access_token⟩ := by
  simp [pollForToken, h]

theorem pollForToken_cons_reqError (dc : String) (i : Nat)
    (respDesc : Option String) (msg : String) (rest : List TokenResponse) :
    pollForToken dc i (TokenResponse.reqError respDesc msg :: rest) =
      ⟨[i], [⟨CLIENT_ID, dc, GRANT_TYPE⟩],
       PollResult.failure (if isTruthy respDesc then respDesc.getD "" else msg)⟩ := rfl

theorem isTransient_ok (d : TokenData) :
    isTransient (TokenResponse.ok d) = true ↔
      d.error = some "authorization_pending" ∨ d.error = some "slow_down" := by
  simp [isTransient, isPendingResp, isSlowDownResp]

theorem isTransient_reqError (a : Option String) (b : String) :
    isTransient (TokenResponse.reqError a b) = false := rfl

theorem slowDownCount_nil : slowDownCount [] = 0 := rfl

theorem slowDownCount_cons_slow (d : TokenData) (rs : List TokenResponse)
    (h : d.error = some "slow_down") :
    slowDownCount (TokenResponse.ok d :: rs) = slowDownCount rs + 1 := by
  simp [slowDownCount, List.filter_cons, isSlowDownResp, h]

theorem slowDownCount_cons_not (r : TokenResponse) (rs : List TokenResponse)
    (h : isSlowDownResp r = false) :
    slowDownCount (r :: rs) = slowDownCount rs := by
  simp [slowDownCount, List.filter_cons, h]

/-- Every iteration performs exactly one wait per token request. -/
theorem pollForToken_length_eq (dc : String) (rs : List TokenResponse) :
    ∀ i : Nat,
      (pollForToken dc i rs).waits.length = (pollForToken dc i rs).requests.length := by
  induction rs with
  | nil => intro i; rfl
  | cons r rest ih =>
      intro i
      cases r with
      | reqError respDesc msg => rfl
      | ok d =>
          by_cases h1 : isTruthy d.error
          · by_cases h2 : d.error = some "authorization_pending"
            · rw [pollForToken_cons_pending dc i d rest h2]; simp [ih i]
            · by_cases h3 : d.error = some "slow_down"
              · rw [pollForToken_cons_slow dc i d rest h3]; simp [ih (i + 5)]
              · rw [pollForToken_cons_fatal dc i d rest h1 h2 h3]; rfl
          · rw [pollForToken_cons_success dc i d rest (by simpa using h1)]; rfl

/-- The wait preceding request `n` is the initial interval plus 5 seconds per
`slow_down` response among the `n` responses already consumed. -/
theorem pollForToken_waits_get? (dc : String) (rs : List TokenResponse) :
    ∀ i n : Nat, n < (pollForToken dc i rs).waits.length →
      (pollForToken dc i rs).waits.get? n = some (i + 5 * slowDownCount (rs.take n)) := by
  induction rs with
  | nil => intro i n h; simp [pollForToken_nil] at h
  | cons r rest ih =>
      intro i n h
      cases r with
      | reqError respDesc msg =>
          rw [pollForToken_cons_reqError] at h ⊢
          match n, h with
          | 0, _ => simp [slowDownCount_nil]
          | m + 1, h => simp at h
      | ok d =>
          by_cases h1 : isTruthy d.error
          · by_cases h2 : d.error = some "authorization_pending"
            · rw [pollForToken_cons_pending dc i d rest h2] at h ⊢
              match n, h with
              | 0, _ => simp [slowDownCount_nil]
              | m + 1, h =>
                  have hs : isSlowDownResp (TokenResponse.ok d) = false := by
                    simp [isSlowDownResp, h2]
                  have hm : m < (pollForToken dc i rest).waits.length := by simpa using h
                  have harith : i + 5 * slowDownCount ((TokenResponse.ok d :: rest).take (m + 1)) =
                      i + 5 * slowDownCount (rest.take m) := by
                    rw [List.take_succ_cons, slowDownCount_cons_not _ _ hs]
                  rw [harith]
                  simpa using ih i m hm
            · by_cases h3 : d.error = some "slow_down"
              · rw [pollForToken_cons_slow dc i d rest h3] at h ⊢
                match n, h with
                | 0, _ => simp [slowDownCount_nil]
                | m + 1, h =>
                    have hm : m < (pollForToken dc (i + 5) rest).waits.length := by simpa using h
                    have harith :
                        i + 5 * slowDownCount ((TokenResponse.ok d :: rest).take (m + 1)) =
                          (i + 5) + 5 * slowDownCount (rest.take m) := by
                      rw [List.take_succ_cons, slowDownCount_cons_slow d _ h3]; ring
                    rw [harith]
                    simpa using ih (i + 5) m hm
              · rw [pollForToken_cons_fatal dc i d rest h1 h2 h3] at h ⊢
                match n, h with
                | 0, _ => simp [slowDownCount_nil]
                | m + 1, h => simp at h
          · rw [pollForToken_cons_success dc i d rest (by simpa using h1)] at h ⊢
            match n, h with
            | 0, _ => simp [slowDownCount_nil]
            | m + 1, h => simp at h

/-- Running the loop on a script whose front is all transient continues into
the back of the script, with the interval grown by 5 per `slow_down`. -/
theorem pollForToken_append (dc : String) (pre : List TokenResponse) :
    ∀ (i : Nat) (rs : List TokenResponse), (∀ r ∈ pre, isTransient r = true) →
      pollForToken dc i (pre ++ rs) =
        ⟨(pollForToken dc i pre).waits ++
           (pollForToken dc (i + 5 * slowDownCount pre) rs).waits,
         (pollForToken dc i pre).requests ++
           (pollForToken dc (i + 5 * slowDownCount pre) rs).requests,
         (pollForToken dc (i + 5 * slowDownCount pre) rs).result⟩ := by
  induction pre with
  | nil => intro i rs _; simp [pollForToken_nil, slowDownCount_nil]
  | cons r pre ih =>
      intro i rs hall
      have hr : isTransient r = true := hall r (by simp)
      have hall' : ∀ x ∈ pre, isTransient x = true := fun x hx => hall x (by simp [hx])
      cases r with
      | reqError a b => simp [isTransient_reqError] at hr
      | ok d =>
          rcases (isTransient_ok d).mp hr with h | h
          · have hs : isSlowDownResp (TokenResponse.ok d) = false := by
              simp [isSlowDownResp, h]
            rw [List.cons_append, pollForToken_cons_pending dc i d (pre ++ rs) h,
                ih i rs hall', pollForToken_cons_pending dc i d pre h,
                slowDownCount_cons_not _ _ hs]
            simp
          · have harith : i + 5 * slowDownCount (TokenResponse.ok d :: pre) =
                (i + 5) + 5 * slowDownCount pre := by
              rw [slowDownCount_cons_slow d _ h]; ring
            rw [List.cons_append, pollForToken_cons_slow dc i d (pre ++ rs) h,
                ih (i + 5) rs hall', pollForToken_cons_slow dc i d pre h, harith]
            simp

/-- A script of transient responses is consumed whole and leaves the loop
still pending, one wait per response. -/
theorem pollForToken_transient_waits_length (dc : String) (rs : List TokenResponse) :
    ∀ i : Nat, (∀ r ∈ rs, isTransient r = true) →
      (pollForToken dc i rs).waits.length = rs.length := by
  induction rs with
  | nil => intro i _; rfl
  | cons r rest ih =>
      intro i hall
      have hall' : ∀ x ∈ rest, isTransient x = true := fun x hx => hall x (by simp [hx])
      cases r with
      | reqError a b =>
          have := hall (TokenResponse.reqError a b) (by simp)
          simp [isTransient_reqError] at this
      | ok d =>
          rcases (isTransient_ok d).mp (hall _ (by simp)) with h | h
          · rw [pollForToken_cons_pending dc i d rest h]
            simp [ih i hall']
          · rw [pollForToken_cons_slow dc i d rest h]
            simp [ih (i + 5) hall']

/-- On an all-transient script the loop's outcome is still `pending`. -/
theorem pollForToken_transient_result (dc : String) (rs : List TokenResponse)
    (i : Nat) (hall : ∀ r ∈ rs, isTransient r = true) :
    (pollForToken dc i rs).result = PollResult.pending (i + 5 * slowDownCount rs) := by
  have h := congrArg PollTrace.result (pollForToken_append dc rs i [] hall)
  simpa [pollForToken_nil] using h

/-- Conversely, if the loop is still pending after a script, every scripted
response was transient. -/
theorem pollForToken_pending_transient (dc : String) (rs : List TokenResponse) :
    ∀ (i j : Nat), (pollForToken dc i rs).result = PollResult.pending j →
      ∀ r ∈ rs, isTransient r = true := by
  induction rs with
  | nil => intro i j _ r hr; simp at hr
  | cons r rest ih =>
      intro i j hres x hx
      cases r with
      | reqError a b =>
          rw [pollForToken_cons_reqError] at hres
          simp at hres
      | ok d =>
          by_cases h1 : isTruthy d.error
          · by_cases h2 : d.error = some "authorization_pending"
            · rw [pollForToken_cons_pending dc i d rest h2] at hres
              rcases List.mem_cons.mp hx with rfl | hx'
              · exact (isTransient_ok d).mpr (Or.inl h2)
              · exact ih i j hres x hx'
            · by_cases h3 : d.error = some "slow_down"
              · rw [pollForToken_cons_slow dc i d rest h3] at hres
                rcases List.mem_cons.mp hx with rfl | hx'
                · exact (isTransient_ok d).mpr (Or.inr h3)
                · exact ih (i + 5) j hres x hx'
              · rw [pollForToken_cons_fatal dc i d rest h1 h2 h3] at hres
                simp at hres
          · rw [pollForToken_cons_success dc i d rest (by simpa using h1)] at hres
            simp at hres

/-- Every token request the loop issues carries the fixed client id, the
device code the loop was given, and the fixed grant type. -/
theorem pollForToken_requests_eq (dc : String) (rs : List TokenResponse) :
    ∀ i : Nat, ∀ req ∈ (pollForToken dc i rs).requests,
      req = ⟨CLIENT_ID, dc, GRANT_TYPE⟩ := by
  induction rs with
  | nil => intro i req hreq; simp [pollForToken_nil] at hreq
  | cons r rest ih =>
      intro i req hreq
      cases r with
      | reqError a b =>
          rw [pollForToken_cons_reqError] at hreq
          simpa using hreq
      | ok d =>
          by_cases h1 : isTruthy d.error
          · by_cases h2 : d.error = some "authorization_pending"
            · rw [pollForToken_cons_pending dc i d rest h2] at hreq
              rcases List.mem_cons.mp hreq with rfl | h
              · rfl
              · exact ih i req h
            · by_cases h3 : d.error = some "slow_down"
              · rw [pollForToken_cons_slow dc i d rest h3] at hreq
                rcases List.mem_cons.mp hreq with rfl | h
                · rfl
                · exact ih (i + 5) req h
              · rw [pollForToken_cons_fatal dc i d rest h1 h2 h3] at hreq
                simpa using hreq
          · rw [pollForToken_cons_success dc i d rest (by simpa using h1)] at hreq
            simpa using hreq

theorem slowDownCount_take_le (rs : List TokenResponse) (n : Nat) :
    slowDownCount (rs.take n) ≤ slowDownCount (rs.take (n + 1)) := by
  have h1 : (rs.take (n + 1)).take n = rs.take n := by
    rw [List.take_take]
    congr 1
    omega
  have hsub : List.Sublist (rs.take n) (rs.take (n + 1)) := by
    rw [← h1]
    exact List.take_sublist n _
  have hf := hsub.filter isSlowDownResp
  simpa [slowDownCount] using hf.length_le

/-- No recorded wait is ever below the initial interval. -/
theorem pollForToken_waits_ge (dc : String) (i : Nat) (rs : List TokenResponse) :
    ∀ w ∈ (pollForToken dc i rs).waits, i ≤ w := by
  intro w hw
  rcases List.mem_iff_getElem.mp hw with ⟨n, hn, hval⟩
  have h1 := pollForToken_waits_get? dc rs i n hn
  rw [List.get?_eq_get hn] at h1
  have h2 := Option.some.inj h1
  rw [List.get_eq_getElem, hval] at h2
  omega

/-- The sequence of waits is monotonically non-decreasing. -/
theorem pollForToken_waits_chain (dc : String) (i : Nat) (rs : List TokenResponse) :
    List.Chain' (· ≤ ·) (pollForToken dc i rs).waits := by
  rw [List.chain'_iff_get]
  intro n hn
  have h1 : n < (pollForToken dc i rs).waits.length := by omega
  have h2 : n + 1 < (pollForToken dc i rs).waits.length := by omega
  have g1 := pollForToken_waits_get? dc rs i n h1
  have g2 := pollForToken_waits_get? dc rs i (n + 1) h2
  rw [List.get?_eq_get h1] at g1
  rw [List.get?_eq_get h2] at g2
  have e1 := Option.some.inj g1
  have e2 := Option.some.inj g2
  have hc := slowDownCount_take_le rs n
  rw [e1, e2]
  omega

/-- The loop performs at least one wait whenever it consumes a response. -/
theorem pollForToken_waits_pos (dc : String) (i : Nat) (r : TokenResponse)
    (rest : List TokenResponse) :
    0 < (pollForToken dc i (r :: rest)).waits.length := by
  cases r with
  | reqError a b => rw [pollForToken_cons_reqError]; simp
  | ok d =>
      by_cases h1 : isTruthy d.error
      · by_cases h2 : d.error = some "authorization_pending"
        · rw [pollForToken_cons_pending dc i d rest h2]; simp
        · by_cases h3 : d.error = some "slow_down"
          · rw [pollForToken_cons_slow dc i d rest h3]; simp
          · rw [pollForToken_cons_fatal dc i d rest h1 h2 h3]; simp
      · rw [pollForToken_cons_success dc i d rest (by simpa using h1)]; simp

theorem pollForToken_transient_requests_length (dc : String) (rs : List TokenResponse)
    (i : Nat) (hall : ∀ r ∈ rs, isTransient r = true) :
    (pollForToken dc i rs).requests.length = rs.length := by
  rw [← pollForToken_length_eq]
  exact pollForToken_transient_waits_length dc rs i hall

example :
    pollForToken "dc1" 5
      [TokenResponse.ok ⟨some "authorization_pending", none, none⟩,
       TokenResponse.ok ⟨none, none, some "tok_abc"⟩] =
    ⟨[5, 5], [⟨CLIENT_ID, "dc1", GRANT_TYPE⟩, ⟨CLIENT_ID, "dc1", GRANT_TYPE⟩],
     PollResult.success (some "tok_abc")⟩ := by decide

example :
    pollForToken "dc1" 5
      [TokenResponse.ok ⟨some "slow_down", none, none⟩,
       TokenResponse.ok ⟨none, none, some "tok_xyz"⟩] =
    ⟨[5, 10], [⟨CLIENT_ID, "dc1", GRANT_TYPE⟩, ⟨CLIENT_ID, "dc1", GRANT_TYPE⟩],
     PollResult.success (some "tok_xyz")⟩ := by decide

example :
    (pollForToken "dc1" 5
      [TokenResponse.ok ⟨some "expired_token", some "device code expired", none⟩]).result =
    PollResult.failure "device code expired" := by decide

/-! Claim theorems. -/

/-- C2: for every sequence of responses, the wait interval used by
`pollForToken` is monotonically non-decreasing, and the wait preceding the
`n`-th token request equals the initial interval plus exactly 5 seconds for
every `slow_down` response among the `n` responses already consumed — so each
`slow_down` raises all subsequent waits by exactly 5, each
`authorization_pending` leaves them unchanged, and the interval never
decreases. -/
theorem C2_interval_monotone (dc : String) (i : Nat) (rs : List TokenResponse) :
    List.Chain' (· ≤ ·) (pollForToken dc i rs).waits ∧
    (∀ n : Nat, n < (pollForToken dc i rs).waits.length →
      (pollForToken dc i rs).waits.get? n = some (i + 5 * slowDownCount (rs.take n))) :=
  ⟨pollForToken_waits_chain dc i rs, fun n hn => pollForToken_waits_get? dc rs i n hn⟩

/-- Script used to witness C2: one `slow_down` then one `authorization_pending`. -/
def scriptC2 : List TokenResponse :=
  [TokenResponse.ok ⟨some "slow_down", none, none⟩,
   TokenResponse.ok ⟨some "authorization_pending", none, none⟩]

/-- Witness for C2 at a concrete script: the second wait is the initial 5
seconds plus 5 for the one `slow_down` already received. -/
theorem C2_interval_monotone_wit :
    (pollForToken "dc1" 5 scriptC2).waits.get? 1 =
      some (5 + 5 * slowDownCount (scriptC2.take 1)) :=
  (C2_interval_monotone "dc1" 5 scriptC2).2 1 (by decide)

/-- C7: the loop is still pending after a finite script exactly when every
scripted response was transient (`authorization_pending` or `slow_down`) — it
terminates exactly on a success or fatal response, with no retry cap; and the
session's `expires_in` value is never enforced: replacing it changes nothing
about a `getGitHubToken` run. -/
theorem C7_pending_iff_transient :
    (∀ (dc : String) (i : Nat) (rs : List TokenResponse),
      (∃ j, (pollForToken dc i rs).result = PollResult.pending j) ↔
        ∀ r ∈ rs, isTransient r = true) ∧
    (∀ (sess : DeviceSession) (o : Option String) (rs : List TokenResponse) (e : Nat),
      getGitHubToken ⟨DeviceCodeOutcome.ok {sess with expires_in := e}, o, rs⟩ =
        getGitHubToken ⟨DeviceCodeOutcome.ok sess, o, rs⟩) := by
  constructor
  · intro dc i rs
    constructor
    · rintro ⟨j, hj⟩
      exact pollForToken_pending_transient dc rs i j hj
    · intro hall
      exact ⟨i + 5 * slowDownCount rs, pollForToken_transient_result dc rs i hall⟩
  · intro sess o rs e
    cases o with
    | none => rfl
    | some m => rfl

/-- Script used to witness C7: three transient responses. -/
def scriptC7 : List TokenResponse :=
  [TokenResponse.ok ⟨some "authorization_pending", none, none⟩,
   TokenResponse.ok ⟨some "slow_down", none, none⟩,
   TokenResponse.ok ⟨some "authorization_pending", none, none⟩]

/-- Witness for C7: after three transient responses the loop has neither
succeeded nor failed. -/
theorem C7_pending_iff_transient_wit :
    ∃ j, (pollForToken "dc1" 5 scriptC7).result = PollResult.pending j :=
  (C7_pending_iff_transient.1 "dc1" 5 scriptC7).mpr (by decide)

/-- C8: the loop records exactly one wait per token request (the wait comes
first), the wait before the first request equals the session's initial
interval, and every wait is at least the initial interval — so no token
request is ever issued before a wait of at least `session.interval` seconds. -/
theorem C8_wait_before_every_request (dc : String) (i : Nat) (rs : List TokenResponse) :
    (pollForToken dc i rs).waits.length = (pollForToken dc i rs).requests.length ∧
    (rs ≠ [] → (pollForToken dc i rs).waits.get? 0 = some i) ∧
    (∀ w ∈ (pollForToken dc i rs).waits, i ≤ w) := by
  refine ⟨pollForToken_length_eq dc rs i, ?_, pollForToken_waits_ge dc i rs⟩
  intro hne
  have hlen : 0 < (pollForToken dc i rs).waits.length := by
    cases rs with
    | nil => exact absurd rfl hne
    | cons r rest => exact pollForToken_waits_pos dc i r rest
  simpa [slowDownCount_nil] using pollForToken_waits_get? dc rs i 0 hlen

/-- Script used to witness C8: one `slow_down` then one `authorization_pending`,
giving waits of 5 then 10 seconds. -/
def scriptC8 : List TokenResponse :=
  [TokenResponse.ok ⟨some "slow_down", none, none⟩,
   TokenResponse.ok ⟨some "authorization_pending", none, none⟩]

/-- Witness for C8 at a concrete script: the first wait is the initial
interval, and the later wait of 10 seconds is at least the initial 5. -/
theorem C8_wait_before_every_request_wit :
    (pollForToken "dc1" 5 scriptC8).waits.get? 0 = some 5 ∧ 5 ≤ 10 :=
  ⟨(C8_wait_before_every_request "dc1" 5 scriptC8).2.1 (by decide),
   (C8_wait_before_every_request "dc1" 5 scriptC8).2.2 10 (by decide)⟩

theorem slowDownCount_eq_zero_of_pending (pre : List TokenResponse)
    (hpre : ∀ r ∈ pre, isPendingResp r = true) : slowDownCount pre = 0 := by
  induction pre with
  | nil => rfl
  | cons r rest ih =>
      have hr := hpre r (by simp)
      have hs : isSlowDownResp r = false := by
        cases r with
        | reqError a b => rfl
        | ok d =>
            simp [isPendingResp] at hr
            simp [isSlowDownResp, hr]
      rw [slowDownCount_cons_not r rest hs]
      exact ih (fun x hx => hpre x (by simp [hx]))

theorem isTransient_of_pendingResp (r : TokenResponse)
    (h : isPendingResp r = true) : isTransient r = true := by
  cases r with
  | reqError a b => simp [isPendingResp] at h
  | ok d =>
      simp [isPendingResp] at h
      exact (isTransient_ok d).mpr (Or.inl h)

/-- C1 (amended): for every script in which some response carries an
`access_token` and no truthy `error` field, and every earlier response has
error `authorization_pending`, the loop returns that `access_token` on the
iteration that receives it and performs no further polls. -/
theorem C1_token_returned (dc : String) (i : Nat) (pre rest : List TokenResponse)
    (d : TokenData) (tok : String)
    (hpre : ∀ r ∈ pre, isPendingResp r = true)
    (herr : isTruthy d.error = false)
    (htok : d.access_token = some tok) :
    (pollForToken dc i (pre ++ TokenResponse.ok d :: rest)).result =
      PollResult.success (some tok) ∧
    (pollForToken dc i (pre ++ TokenResponse.ok d :: rest)).requests.length =
      pre.length + 1 := by
  have htrans : ∀ r ∈ pre, isTransient r = true :=
    fun r hr => isTransient_of_pendingResp r (hpre r hr)
  have hcount := slowDownCount_eq_zero_of_pending pre hpre
  have happ := pollForToken_append dc pre i (TokenResponse.ok d :: rest) htrans
  rw [hcount] at happ
  simp only [Nat.mul_zero, Nat.add_zero] at happ
  rw [pollForToken_cons_success dc i d rest herr] at happ
  constructor
  · simpa [htok] using congrArg PollTrace.result happ
  · have hr := congrArg (fun t : PollTrace => t.requests.length) happ
    simpa [pollForToken_transient_requests_length dc pre i htrans] using hr

/-- C1 counterexample: a response carrying both `error: "expired_token"` and
an `access_token` is classified by its `error` field first, so even with no
earlier responses the loop throws instead of returning the token — refuting
the claim for responses that contain an `access_token` alongside an error. -/
theorem C1_error_field_wins :
    (pollForToken "dc1" 5
      [TokenResponse.ok ⟨some "expired_token", none, some "tok_abc"⟩]).result =
      PollResult.failure "expired_token" ∧
    (pollForToken "dc1" 5
      [TokenResponse.ok ⟨some "expired_token", none, some "tok_abc"⟩]).result ≠
      PollResult.success (some "tok_abc") := by
  decide

/-- Script used to witness C1: a single `authorization_pending` response. -/
def scriptC1 : List TokenResponse :=
  [TokenResponse.ok ⟨some "authorization_pending", none, none⟩]

/-- Witness for C1 at a concrete script: one pending response, then a success
response, yields the token after exactly two requests. -/
theorem C1_token_returned_wit :
    (pollForToken "dc1" 5 (scriptC1 ++
      TokenResponse.ok ⟨none, none, some "tok_abc"⟩ :: [])).result =
      PollResult.success (some "tok_abc") ∧
    (pollForToken "dc1" 5 (scriptC1 ++
      TokenResponse.ok ⟨none, none, some "tok_abc"⟩ :: [])).requests.length =
      scriptC1.length + 1 :=
  C1_token_returned "dc1" 5 scriptC1 [] ⟨none, none, some "tok_abc"⟩ "tok_abc"
    (by decide) (by decide) rfl

/-- C3: after any transient responses, the first response whose error code is
neither `authorization_pending` nor `slow_down` terminates the loop on that
response, with a failure whose message is `error_description || error` — it
contains the provider-supplied `error_description` whenever one is present,
and otherwise is the error code itself. -/
theorem C3_fatal_error_propagates (dc : String) (i : Nat)
    (pre rest : List TokenResponse) (d : TokenData)
    (hpre : ∀ r ∈ pre, isTransient r = true)
    (h1 : isTruthy d.error = true)
    (h2 : d.error ≠ some "authorization_pending")
    (h3 : d.error ≠ some "slow_down") :
    (pollForToken dc i (pre ++ TokenResponse.ok d :: rest)).result =
      PollResult.failure (jsOr d.error_description (d.error.getD "")) ∧
    (pollForToken dc i (pre ++ TokenResponse.ok d :: rest)).requests.length =
      pre.length + 1 ∧
    (∀ s, d.error_description = some s →
      List.IsInfix s.toList (jsOr d.error_description (d.error.getD "")).toList) ∧
    (d.error_description = none →
      jsOr d.error_description (d.error.getD "") = d.error.getD "") := by
  have happ := pollForToken_append dc pre i (TokenResponse.ok d :: rest) hpre
  rw [pollForToken_cons_fatal dc (i + 5 * slowDownCount pre) d rest h1 h2 h3] at happ
  refine ⟨?_, ?_, ?_, ?_⟩
  · simpa using congrArg PollTrace.result happ
  · have hr := congrArg (fun t : PollTrace => t.requests.length) happ
    simpa [pollForToken_transient_requests_length dc pre i hpre] using hr
  · intro s hs
    by_cases hse : s = ""
    · subst hse
      simp
    · have hval : jsOr d.error_description (d.error.getD "") = s := by
        simp [jsOr, hs, isTruthy, hse]
      rw [hval]
  · intro hnone
    simp [jsOr, hnone, isTruthy]

/-- Script used to witness C3: a single `authorization_pending` response. -/
def scriptC3 : List TokenResponse :=
  [TokenResponse.ok ⟨some "authorization_pending", none, none⟩]

/-- Fatal response used to witness C3. -/
def dC3 : TokenData := ⟨some "access_denied", some "user denied", none⟩

/-- Witness for C3 at a concrete script: `access_denied` with a description
terminates the loop on its iteration and the description reaches the message. -/
theorem C3_fatal_error_propagates_wit :
    (pollForToken "dc1" 5 (scriptC3 ++ TokenResponse.ok dC3 :: [])).result =
      PollResult.failure (jsOr dC3.error_description (dC3.error.getD "")) ∧
    List.IsInfix "user denied".toList
      (jsOr dC3.error_description (dC3.error.getD "")).toList :=
  ⟨(C3_fatal_error_propagates "dc1" 5 scriptC3 [] dC3 (by decide) (by decide)
      (by decide) (by decide)).1,
   (C3_fatal_error_propagates "dc1" 5 scriptC3 [] dC3 (by decide) (by decide)
      (by decide) (by decide)).2.2.1 "user denied" rfl⟩

theorem getGitHubToken_requests (sess : DeviceSession) (rs : List TokenResponse) :
    (getGitHubToken ⟨DeviceCodeOutcome.ok sess, none, rs⟩).requests =
      (pollForToken sess.device_code sess.interval rs).requests := by
  simp only [getGitHubToken]
  split <;> rfl

theorem getGitHubToken_ok_result (sess : DeviceSession) (rs : List TokenResponse) :
    (getGitHubToken ⟨DeviceCodeOutcome.ok sess, none, rs⟩).result =
      (match (pollForToken sess.device_code sess.interval rs).result with
       | PollResult.success tok => GetTokenResult.ok tok
       | PollResult.failure m =>
           GetTokenResult.authError ("GitHub authentication failed: " ++ m)
       | PollResult.pending j => GetTokenResult.pending j) := by
  simp only [getGitHubToken]
  split <;> rfl

/-- Device session of the C4 scenario. -/
def sessC4 : DeviceSession := ⟨"ABCD-1234", "https://example.com/device", 5, "dc1", 900⟩

/-- Environment of the C4 scenario: the poll returns `expired_token` with
description `"device code expired"`. -/
def envC4 : Env :=
  ⟨DeviceCodeOutcome.ok sessC4, none,
   [TokenResponse.ok ⟨some "expired_token", some "device code expired", none⟩]⟩

/-- C4 counterexample: in the `expired_token` scenario `getGitHubToken`
rejects with message `"GitHub authentication failed: device code expired"`,
which is not exactly `"device code expired"` — the outer catch wraps every
message. -/
theorem C4_message_is_wrapped :
    (getGitHubToken envC4).result =
      GetTokenResult.authError "GitHub authentication failed: device code expired" ∧
    (getGitHubToken envC4).result ≠ GetTokenResult.authError "device code expired" := by
  decide

/-- C4 (amended): in the `expired_token` scenario `getGitHubToken` rejects
with an error whose message is `"GitHub authentication failed: "` followed by
the provider's description `"device code expired"`; the description is
contained in (but does not equal) the message. -/
theorem C4_rejects_wrapped_description :
    (getGitHubToken envC4).result =
      GetTokenResult.authError ("GitHub authentication failed: " ++ "device code expired") ∧
    List.IsInfix "device code expired".toList
      "GitHub authentication failed: device code expired".toList := by
  decide

/-- Environment of the C5 counterexample: the device-code request rejects with
an axios transport error whose response body carried a description the outer
catch never reads. -/
def envC5 : Env :=
  ⟨DeviceCodeOutcome.reqError (some "bad scope") "Request failed with status code 400",
   none, [TokenResponse.ok ⟨none, none, some "tok_abc"⟩]⟩

/-- C5 counterexample: when the device-code request fails, no wait occurs, no
token request is issued, `pollForToken` is never invoked, and the error
message is built only from the transport error's message — the provider's
available description `"bad scope"` does not appear in it. -/
theorem C5_description_not_consulted :
    getGitHubToken envC5 =
      ⟨[], [], false,
       GetTokenResult.authError
         "GitHub authentication failed: Request failed with status code 400"⟩ ∧
    ¬ List.IsInfix "bad scope".toList
        "GitHub authentication failed: Request failed with status code 400".toList := by
  decide

/-- C5 (amended): if the initial device-code request fails, `pollForToken` is
never invoked, no wait occurs and no token request is issued, and
`getGitHubToken` fails immediately with `"GitHub authentication failed: "`
followed by the thrown error's message (the transport message; the provider's
response-body description is not consulted). -/
theorem C5_no_poll_on_device_code_failure (desc : Option String) (msg : String)
    (o : Option String) (rs : List TokenResponse) :
    getGitHubToken ⟨DeviceCodeOutcome.reqError desc msg, o, rs⟩ =
      ⟨[], [], false, GetTokenResult.authError ("GitHub authentication failed: " ++ msg)⟩ :=
  rfl

/-- Device session of the C6 counterexample. -/
def sessC6 : DeviceSession := ⟨"ABCD-1234", "https://example.com/device", 5, "dc1", 900⟩

/-- Environment of the C6 counterexample: the device-code request succeeds, a
success response is waiting at the token endpoint, but `open` rejects. -/
def envC6 : Env :=
  ⟨DeviceCodeOutcome.ok sessC6, some "spawn xdg-open ENOENT",
   [TokenResponse.ok ⟨none, none, some "tok_abc"⟩]⟩

/-- C6 counterexample: when the browser-open step fails (its promise
rejects), `getGitHubToken` does not proceed to poll — `pollForToken` is never
invoked — and the attempt is rejected, refuting the claim that a failed
browser open is not fatal. -/
theorem C6_open_failure_is_fatal :
    (getGitHubToken envC6).polled = false ∧
    (getGitHubToken envC6).result =
      GetTokenResult.authError "GitHub authentication failed: spawn xdg-open ENOENT" := by
  decide

/-- C6 (amended): if `open(verification_uri)` rejects, `getGitHubToken`
rejects with `"GitHub authentication failed: "` followed by the open error's
message, without invoking `pollForToken` and without any wait or token
request. -/
theorem C6_open_failure_rejects (sess : DeviceSession) (msg : String)
    (rs : List TokenResponse) :
    getGitHubToken ⟨DeviceCodeOutcome.ok sess, some msg, rs⟩ =
      ⟨[], [], false, GetTokenResult.authError ("GitHub authentication failed: " ++ msg)⟩ :=
  rfl

/-- C9: within one `getGitHubToken` run that obtained a session, every token
request issued during polling carries the `device_code` of that single
initial session, together with the fixed client id and grant type — the
device code is never regenerated within the attempt. -/
theorem C9_single_device_code (env : Env) (sess : DeviceSession)
    (hdc : env.deviceCodeOutcome = DeviceCodeOutcome.ok sess)
    (req : TokenRequest) (hreq : req ∈ (getGitHubToken env).requests) :
    req.device_code = sess.device_code ∧
    req.client_id = CLIENT_ID ∧ req.grant_type = GRANT_TYPE := by
  rcases env with ⟨dco, o, rs⟩
  have hdc' : dco = DeviceCodeOutcome.ok sess := hdc
  subst hdc'
  cases o with
  | some m => simp [getGitHubToken] at hreq
  | none =>
      rw [getGitHubToken_requests sess rs] at hreq
      have := pollForToken_requests_eq sess.device_code rs sess.interval req hreq
      rw [this]
      exact ⟨rfl, rfl, rfl⟩

/-- Device session used to witness C9. -/
def sessC9 : DeviceSession := ⟨"ABCD-1234", "https://example.com/device", 5, "dc9", 900⟩

/-- Environment used to witness C9: one pending response, then a success. -/
def envC9 : Env :=
  ⟨DeviceCodeOutcome.ok sessC9, none,
   [TokenResponse.ok ⟨some "authorization_pending", none, none⟩,
    TokenResponse.ok ⟨none, none, some "tok_abc"⟩]⟩

/-- Witness for C9 at a concrete run: a request issued during polling carries
the session's device code, client id and grant type. -/
theorem C9_single_device_code_wit :
    (⟨CLIENT_ID, "dc9", GRANT_TYPE⟩ : TokenRequest).device_code = sessC9.device_code ∧
    (⟨CLIENT_ID, "dc9", GRANT_TYPE⟩ : TokenRequest).client_id = CLIENT_ID ∧
    (⟨CLIENT_ID, "dc9", GRANT_TYPE⟩ : TokenRequest).grant_type = GRANT_TYPE :=
  C9_single_device_code envC9 sessC9 rfl ⟨CLIENT_ID, "dc9", GRANT_TYPE⟩ (by decide)

/-- C10: a token-endpoint response with neither an `error` field nor an
`access_token` field is classified as success — success is decided by absence
of `error`, not by presence of `access_token` — so the loop returns the
absent token and `getGitHubToken` resolves successfully without a
credential. -/
theorem C10_success_without_token (dc : String) (i : Nat) (d : TokenData)
    (rest : List TokenResponse) (sess : DeviceSession)
    (he : d.error = none) (ha : d.access_token = none) :
    (pollForToken dc i (TokenResponse.ok d :: rest)).result =
      PollResult.success none ∧
    (getGitHubToken ⟨DeviceCodeOutcome.ok sess, none, TokenResponse.ok d :: rest⟩).result =
      GetTokenResult.ok none := by
  have herr : isTruthy d.error = false := by rw [he]; rfl
  have h1 : ∀ (dc' : String) (j : Nat),
      (pollForToken dc' j (TokenResponse.ok d :: rest)).result =
        PollResult.success none := by
    intro dc' j
    rw [pollForToken_cons_success dc' j d rest herr]
    simp [ha]
  refine ⟨h1 dc i, ?_⟩
  rw [getGitHubToken_ok_result, h1 sess.device_code sess.interval]

/-- Device session used to witness C10. -/
def sessC10 : DeviceSession := ⟨"ABCD-1234", "https://example.com/device", 5, "dc1", 900⟩

/-- Witness for C10 at a concrete empty-body response. -/
theorem C10_success_without_token_wit :
    (pollForToken "dc1" 5 [TokenResponse.ok ⟨none, none, none⟩]).result =
      PollResult.success none ∧
    (getGitHubToken ⟨DeviceCodeOutcome.ok sessC10, none,
      [TokenResponse.ok ⟨none, none, none⟩]⟩).result = GetTokenResult.ok none :=
  C10_success_without_token "dc1" 5 ⟨none, none, none⟩ [] sessC10 rfl rfl
